import Mathlib

/-!
Verification of the sunburn backend-abstraction layer (a uniform synchronous
interface over a local simulated Solana ledger and a remote RPC ledger).

Shallow embedding conventions:
* `Pubkey` is modelled as an opaque identifier (`Nat`); well-known program
  addresses are distinct constants.
* External collaborator types (`solana_sdk`, `solana_runtime`, `solana_client`)
  are embedded only as far as the repository's code inspects them.
* Stateful clients are embedded either as explicit state passing or, for the
  deployment helpers, as the ordered trace of instructions they issue on the
  all-success path.
* Rust panics (`unwrap` / `expect` / `assert!`) are modelled with the
  `PanicOr` outcome type, so that aborting is distinguished from returning.
-/

set_option autoImplicit false

namespace Sunburn

/-- Opaque 32-byte public key / address (solana_sdk::pubkey::Pubkey),
modelled as an abstract identifier. -/
abbrev Pubkey := Nat

/-- System program address 11111111111111111111111111111111. -/
def systemProgramId : Pubkey := 1

/-- Legacy BPF loader address BPFLoader2111111111111111111111111111111111
(solana_sdk::bpf_loader::ID). -/
def bpfLoaderId : Pubkey := 2

/-- Upgradeable loader address BPFLoaderUpgradeab1e11111111111111111111111
(solana_sdk::bpf_loader_upgradeable::ID). -/
def upgradeableLoaderId : Pubkey := 3

/-- Address of the Rent sysvar account (solana_sdk Rent::id()). -/
def rentSysvarId : Pubkey := 4

/-- Byte serialization of a public key (Pubkey::to_bytes, 32 bytes
little-endian in this model). -/
def Pubkey.to_bytes (p : Pubkey) : List UInt8 :=
  (List.range 32).map (fun i => UInt8.ofNat (p / 256 ^ i % 256))

/-- Signing identity (solana_sdk::signature::Keypair), modelled by the public
key it exposes through Signer::pubkey. -/
structure Keypair where
  pubkey : Pubkey
deriving DecidableEq

/-- Model of solana_sdk::rent::Rent, abstracted by its `minimum_balance`
method (the only way the repository consumes it). -/
structure Rent where
  minimum_balance : Nat → Nat

/-- Modelled from the external crate: Rent::default() has
lamports_per_byte_year = 3480, exemption_threshold = 2.0 years and
ACCOUNT_STORAGE_OVERHEAD = 128, so minimum_balance(n) = (128 + n) * 3480 * 2
(exact in integers because the threshold is 2.0). -/
def Rent.default : Rent :=
  { minimum_balance := fun data_len => (128 + data_len) * 3480 * 2 }

/-- Model of solana_sdk::transaction::TransactionError: the repository only
constructs `SignatureFailure` and passes other values through opaquely. -/
inductive TransactionError where
  | SignatureFailure
  | other (code : Nat)
deriving DecidableEq

/-- Debug rendering of a TransactionError (derive(Debug) on the external
enum), used by the thiserror display attribute of FailedTransaction. -/
def TransactionError.debugStr : TransactionError → String
  | .SignatureFailure => "SignatureFailure"
  | .other code => "Other(" ++ toString code ++ ")"

/-- src/client.rs TransactionDetails: unified execution outcome. -/
structure TransactionDetails where
  log_messages : List String
  /-- Consumed amount of computation unit. -/
  units_consumed : Option Nat
deriving DecidableEq

/-- solana_sdk::account::Account: {lamports, data, owner, executable,
rent_epoch}. -/
structure Account where
  lamports : Nat
  data : List UInt8
  owner : Pubkey
  executable : Bool
  rent_epoch : Nat
deriving DecidableEq

/-- src/client.rs ClientError, parameterized by the backend transport error
type E. -/
inductive ClientError (E : Type) where
  | ChannelError (e : E)
  | InvalidTransaction (err : TransactionError)
  | FailedTransaction (error : TransactionError) (details : TransactionDetails)
  | AccountNotFound (pubkey : Pubkey)
  | InvalidAccountData (pubkey : Pubkey)
deriving DecidableEq

/-- Display text of ClientError from its thiserror attributes. Note that the
attributes written as `#[error("invalid transaction: {}", 0)]` pass the
literal integer 0 as the format argument, so the rendered text contains "0"
rather than the field; the DynClientError attributes are written identically,
so the rendering agrees on both sides. -/
def ClientError.display {E : Type} (displayE : E → String) : ClientError E → String
  | .ChannelError e => "channel error: " ++ displayE e
  | .InvalidTransaction _ => "invalid transaction: 0"
  | .FailedTransaction error _ => "transaction failed to execute: " ++ error.debugStr
  | .AccountNotFound _ => "account not found: 0"
  | .InvalidAccountData _ => "account 0 contains invalid data that cannot be deserialized"

/-- src/client.rs DynClientError: the ChannelError payload is an opaque boxed
error, modelled here by the display text it preserves (Display of
`Box<dyn Error>` delegates to the boxed error). -/
inductive DynClientError where
  | ChannelError (msg : String)
  | InvalidTransaction (err : TransactionError)
  | FailedTransaction (error : TransactionError) (details : TransactionDetails)
  | AccountNotFound (pubkey : Pubkey)
  | InvalidAccountData (pubkey : Pubkey)
deriving DecidableEq

/-- Display text of DynClientError from its thiserror attributes (written
identically to the ones on ClientError). -/
def DynClientError.display : DynClientError → String
  | .ChannelError msg => "channel error: " ++ msg
  | .InvalidTransaction _ => "invalid transaction: 0"
  | .FailedTransaction error _ => "transaction failed to execute: " ++ error.debugStr
  | .AccountNotFound _ => "account not found: 0"
  | .InvalidAccountData _ => "account 0 contains invalid data that cannot be deserialized"

/-- src/client.rs `impl From<ClientError<E>> for DynClientError`: boxing the
transport error is modelled by recording its display text. -/
def DynClientError.ofClientError {E : Type} (displayE : E → String) :
    ClientError E → DynClientError
  | .ChannelError e => .ChannelError (displayE e)
  | .InvalidTransaction err => .InvalidTransaction err
  | .FailedTransaction error details => .FailedTransaction error details
  | .AccountNotFound pubkey => .AccountNotFound pubkey
  | .InvalidAccountData pubkey => .InvalidAccountData pubkey

/-- Claim C5: converting a `ClientError<E>` to `DynClientError` preserves the
variant and the payloads (transaction-error reason, details, address) of every
variant other than `ChannelError`; the `ChannelError` payload is replaced by
the opaque boxed error, through which the transport error's display text, and
hence the whole error's message text, is preserved. -/
theorem c5_dyn_client_error_conversion_lossless
    {E : Type} (displayE : E → String) (err : ClientError E) :
    (∀ r, err = ClientError.InvalidTransaction r ↔
      DynClientError.ofClientError displayE err = DynClientError.InvalidTransaction r) ∧
    (∀ r d, err = ClientError.FailedTransaction r d ↔
      DynClientError.ofClientError displayE err = DynClientError.FailedTransaction r d) ∧
    (∀ p, err = ClientError.AccountNotFound p ↔
      DynClientError.ofClientError displayE err = DynClientError.AccountNotFound p) ∧
    (∀ p, err = ClientError.InvalidAccountData p ↔
      DynClientError.ofClientError displayE err = DynClientError.InvalidAccountData p) ∧
    (∀ e, err = ClientError.ChannelError e →
      DynClientError.ofClientError displayE err = DynClientError.ChannelError (displayE e)) ∧
    DynClientError.display (DynClientError.ofClientError displayE err) =
      ClientError.display displayE err := by
  cases err <;>
    simp [DynClientError.ofClientError, DynClientError.display, ClientError.display]

/-- src/lib.rs AccountConfig: genesis-only account specification. -/
structure AccountConfig where
  /-- Lamports to store in this account. If omitted, the source comment says
  it will be automatically set to the minimum rent-exempt amount. -/
  lamports : Option Nat
  data : List UInt8
  owner : Pubkey
  executable : Bool
deriving DecidableEq

/-- src/lib.rs `impl Default for AccountConfig`. -/
def AccountConfig.default : AccountConfig :=
  { lamports := none
    data := []
    owner := systemProgramId
    executable := false }

/-- src/lib.rs AccountConfig::to_account, line by line: the lamports field
defaults to `rent.minimum_balance(self.data.len()).min(1)`. -/
def AccountConfig.to_account (config : AccountConfig) (rent : Rent) : Account :=
  { lamports := config.lamports.getD (Nat.min (rent.minimum_balance config.data.length) 1)
    data := config.data
    owner := config.owner
    executable := config.executable
    rent_epoch := 0 }

/-- src/lib.rs EnvironmentGenesis. The accounts HashMap is modelled as an
association list (the builder asserts insert-once per address). -/
structure EnvironmentGenesis where
  accounts : List (Pubkey × AccountConfig)
  address_labels : List (Pubkey × String)
  payer : Option Keypair

/-- Lamport balance given to the payer in LocalClientSync::new:
sol_to_lamports(1_000_000_000.0) = 10^9 SOL * 10^9 lamports/SOL (the
floating-point conversion is exact at this value). -/
def localPayerLamports : Nat := 10 ^ 18

/-- src/client/local.rs LocalClientSync::new, lines 35-51: the account set
seeded into the fresh bank's genesis configuration.  Every configured account
is materialized through AccountConfig::to_account against Rent::default(),
then the payer account is appended with a huge balance. -/
def LocalClientSync.newAccounts (genesis : EnvironmentGenesis) (payer : Keypair) :
    List (Pubkey × Account) :=
  genesis.accounts.map (fun p => (p.1, p.2.to_account Rent.default)) ++
    [(payer.pubkey,
      { lamports := localPayerLamports
        data := []
        owner := systemProgramId
        executable := false
        rent_epoch := 0 })]

/-- Claim C2 (failing input): an account configured without lamports and with
empty data is seeded with 1 lamport, not with the rent-exempt minimum 890880
computed by Rent::default() for zero bytes — `to_account` takes
`minimum_balance(..).min(1)` instead of the documented rent-exempt default.
The configured data, owner and executable flag are passed through exactly. -/
theorem c2_default_lamports_not_rent_exempt :
    (AccountConfig.default.to_account Rent.default).lamports = 1 ∧
    Rent.default.minimum_balance 0 = 890880 ∧
    (AccountConfig.default.to_account Rent.default).lamports ≠
      Rent.default.minimum_balance 0 ∧
    LocalClientSync.newAccounts
        { accounts := [(77, AccountConfig.default)], address_labels := [], payer := some ⟨9⟩ }
        ⟨9⟩ =
      [(77, AccountConfig.default.to_account Rent.default),
       (9, { lamports := localPayerLamports, data := [], owner := systemProgramId,
             executable := false, rent_epoch := 0 })] := by
  refine ⟨rfl, rfl, by decide, rfl⟩

/-- src/client/local.rs `type ChannelError = std::convert::Infallible`: the
local backend's transport error type, which has no values. -/
def LocalChannelError : Type := Empty

/-- Model of solana_runtime TransactionExecutionDetails as far as
convert_tx_result inspects it.  The `executed_units` field is typed
`Option Nat`: convert_tx_result assigns it directly to the `Option`-typed
`units_consumed` field without wrapping. -/
structure TransactionExecutionDetails where
  status : Except TransactionError Unit
  log_messages : Option (List String)
  executed_units : Option Nat

/-- Model of solana_runtime TransactionExecutionResult: the engine either
executed the transaction (with details) or rejected it without executing. -/
inductive TransactionExecutionResult where
  | Executed (details : TransactionExecutionDetails)
  | NotExecuted (error : TransactionError)

/-- src/client/local.rs convert_tx_result, line by line. -/
def convert_tx_result {E : Type} (tx_result : TransactionExecutionResult) :
    Except (ClientError E) TransactionDetails :=
  match tx_result with
  | .Executed details =>
      let details_core : TransactionDetails :=
        { log_messages := details.log_messages.getD []
          units_consumed := details.executed_units }
      match details.status with
      | .ok _ => .ok details_core
      | .error error => .error (ClientError.FailedTransaction error details_core)
  | .NotExecuted error => .error (ClientError.InvalidTransaction error)

/-- Abstract model of the black-box solana_runtime Bank operations used by
LocalClientSync::send_transaction: `prepare_entry_batch` takes the bank by
shared reference (it cannot change committed state) and
`load_execute_and_commit_transactions` commits effects, returning the new
bank state together with the single execution result that the source pops
from `execution_results`.  The state, transaction and batch types are
abstract parameters. -/
structure BankModel (σ τ β : Type) where
  prepare_entry_batch : σ → τ → Except TransactionError β
  load_execute_and_commit_transactions : σ → β → σ × TransactionExecutionResult

/-- src/client/local.rs `LocalClientSync::send_transaction` over an abstract
bank model: a batch-preparation error maps to InvalidTransaction and leaves
the bank untouched; otherwise the batch is executed and committed and the raw
result goes through convert_tx_result. -/
def local_send_transaction {σ τ β : Type} (M : BankModel σ τ β) (bank : σ) (tx : τ) :
    σ × Except (ClientError LocalChannelError) TransactionDetails :=
  match M.prepare_entry_batch bank tx with
  | .error e => (bank, .error (ClientError.InvalidTransaction e))
  | .ok batch =>
      let res := M.load_execute_and_commit_transactions bank batch
      (res.1, convert_tx_result res.2)

/-- Claim C4: on the local backend, an executed-and-failed transaction maps to
FailedTransaction whose details still carry the logs and compute units of the
failed attempt; a transaction rejected before execution (either at batch
preparation or reported NotExecuted by the engine, which by the engine's
contract commits nothing) maps to InvalidTransaction with the bank state
unchanged; an executed-and-successful transaction yields Ok with its logs and
units. -/
theorem c4_local_send_transaction_mapping {σ τ β : Type}
    (M : BankModel σ τ β) (bank : σ) (tx : τ)
    (hne : ∀ batch e,
      (M.load_execute_and_commit_transactions bank batch).2 =
        TransactionExecutionResult.NotExecuted e →
      (M.load_execute_and_commit_transactions bank batch).1 = bank) :
    (∀ e, M.prepare_entry_batch bank tx = .error e →
      local_send_transaction M bank tx =
        (bank, .error (ClientError.InvalidTransaction e))) ∧
    (∀ batch ed, M.prepare_entry_batch bank tx = .ok batch →
      (M.load_execute_and_commit_transactions bank batch).2 =
        TransactionExecutionResult.Executed ed →
      (ed.status = .ok () →
        (local_send_transaction M bank tx).2 =
          .ok { log_messages := ed.log_messages.getD []
                units_consumed := ed.executed_units }) ∧
      (∀ e, ed.status = .error e →
        (local_send_transaction M bank tx).2 =
          .error (ClientError.FailedTransaction e
            { log_messages := ed.log_messages.getD []
              units_consumed := ed.executed_units }))) ∧
    (∀ batch e, M.prepare_entry_batch bank tx = .ok batch →
      (M.load_execute_and_commit_transactions bank batch).2 =
        TransactionExecutionResult.NotExecuted e →
      local_send_transaction M bank tx =
        (bank, .error (ClientError.InvalidTransaction e))) := by
  refine ⟨?_, ?_, ?_⟩
  · intro e h
    simp [local_send_transaction, h]
  · intro batch ed hp he
    constructor
    · intro hs
      simp [local_send_transaction, hp, he, convert_tx_result, hs]
    · intro e hs
      simp [local_send_transaction, hp, he, convert_tx_result, hs]
  · intro batch e hp he
    have hb := hne batch e he
    simp [local_send_transaction, hp, he, convert_tx_result, hb]

/-- Concrete bank model used to exercise c4_local_send_transaction_mapping:
a one-transaction engine that always executes successfully with logs and a
unit count. -/
def c4BankModel : BankModel Bool Unit Unit :=
  { prepare_entry_batch := fun _ _ => .ok ()
    load_execute_and_commit_transactions := fun bank _ =>
      (bank,
        TransactionExecutionResult.Executed
          { status := .ok ()
            log_messages := some ["ran"]
            executed_units := some 3 }) }

/-- Claim C4 witness: the mapping theorem applied to the concrete bank model
at a concrete transaction. -/
theorem c4_local_send_transaction_mapping_witness :
    (local_send_transaction c4BankModel true ()).2 =
      .ok { log_messages := ["ran"], units_consumed := some 3 } :=
  ((c4_local_send_transaction_mapping c4BankModel true ()
      (fun batch e h => by simp [c4BankModel] at h)).2.1 () _ rfl rfl).1 rfl

/-- Claim C9 (supporting theorem for the true half): the local backend's
channel-error type is uninhabited, so no transport failure can be produced.
The other half of the claim fails: the `impl ClientSync for LocalClientSync`
block does not define tick_beyond at all. -/
theorem c9_local_channel_error_uninhabited : IsEmpty LocalChannelError :=
  ⟨fun e => Empty.elim e⟩

/-- Transaction signature, modelled as an opaque identifier. -/
abbrev Signature := Nat

/-- Commitment level; the repository only uses finalized. -/
inductive Commitment where
  | finalized
deriving DecidableEq

/-- Outcome of a Rust computation that may abort the process: `panicked`
models an unwrap/expect/assert failure with its message, `ok` a normal
return. -/
inductive PanicOr (α : Type) where
  | panicked (msg : String)
  | ok (a : α)
deriving DecidableEq

/-- Model of solana_client RpcSimulateTransactionResult as far as
send_transaction inspects it. -/
structure SimResult where
  err : Option TransactionError
  logs : Option (List String)
  units_consumed : Option Nat
deriving DecidableEq

/-- Model of solana_client RpcResponseErrorData: send_transaction only
distinguishes the SendTransactionPreflightFailure payload. -/
inductive RpcResponseData where
  | SendTransactionPreflightFailure (simulation_result : SimResult)
  | otherData
deriving DecidableEq

/-- Model of solana_client ClientErrorKind: send_transaction only
distinguishes RpcError(RpcError::RpcResponseError{code, data, ..}). -/
inductive SolErrKind where
  | RpcResponseError (code : Int) (data : RpcResponseData)
  | otherKind
deriving DecidableEq

/-- Model of solana_client::client_error::ClientError (the remote transport
error), abstracted to the `kind` field that send_transaction matches on. -/
structure SolanaClientError where
  kind : SolErrKind
deriving DecidableEq

/-- solana_client rpc_custom_error
JSON_RPC_SERVER_ERROR_SEND_TRANSACTION_PREFLIGHT_FAILURE. -/
def jsonRpcServerErrorSendTransactionPreflightFailure : Int := -32002

/-- solana_client rpc_custom_error
JSON_RPC_SERVER_ERROR_TRANSACTION_SIGNATURE_VERIFICATION_FAILURE. -/
def jsonRpcServerErrorTransactionSignatureVerificationFailure : Int := -32003

/-- Model of solana_transaction_status UiTransactionStatusMeta as far as
send_transaction inspects it (err and log_messages; the struct carries no
compute-unit count). -/
structure TxMeta where
  err : Option TransactionError
  log_messages : Option (List String)
deriving DecidableEq

/-- Model of EncodedConfirmedTransaction: `meta` stands for
`transaction_data.transaction.meta`. -/
structure EncodedTx where
  meta : Option TxMeta
deriving DecidableEq

/-- Message of the Rust panic produced by `Option::unwrap` on `None`. -/
def unwrapNoneMsg : String := "called Option::unwrap on a None value"

/-- Abstract model of the RpcClient calls made by
RemoteClientSync::send_transaction for one fixed transaction:
send_and_confirm_transaction and the follow-up get_transaction. -/
structure RemoteSendModel where
  send_and_confirm_transaction : Except SolanaClientError Signature
  get_transaction : Signature → Except SolanaClientError EncodedTx

/-- src/client/remote.rs RemoteClientSync::send_transaction, line by line.
On transport success the confirmed transaction is re-fetched and its meta is
unwrapped (panicking when absent); units_consumed is hard-coded to None
because UiTransactionStatusMeta does not expose metering.  On transport
failure exactly two RPC error codes are re-interpreted: a
signature-verification failure becomes InvalidTransaction, a preflight
failure with simulation data becomes FailedTransaction carrying the
simulation's logs and optional unit count (sim.err is unwrapped, panicking
when absent); everything else passes through as ChannelError. -/
def remote_send_transaction (M : RemoteSendModel) :
    PanicOr (Except (ClientError SolanaClientError) TransactionDetails) :=
  match M.send_and_confirm_transaction with
  | .ok signat =>
      match M.get_transaction signat with
      | .error e => .ok (.error (ClientError.ChannelError e))
      | .ok transaction_data =>
          match transaction_data.meta with
          | none => .panicked unwrapNoneMsg
          | some transaction_meta =>
              let details : TransactionDetails :=
                { log_messages := transaction_meta.log_messages.getD []
                  units_consumed := none }
              match transaction_meta.err with
              | none => .ok (.ok details)
              | some error => .ok (.error (ClientError.FailedTransaction error details))
  | .error err =>
      match err.kind with
      | .RpcResponseError code data =>
          if code = jsonRpcServerErrorTransactionSignatureVerificationFailure then
            .ok (.error (ClientError.InvalidTransaction TransactionError.SignatureFailure))
          else if code = jsonRpcServerErrorSendTransactionPreflightFailure then
            match data with
            | .SendTransactionPreflightFailure simulation_result =>
                match simulation_result.err with
                | none => .panicked unwrapNoneMsg
                | some e =>
                    .ok (.error (ClientError.FailedTransaction e
                      { log_messages := simulation_result.logs.getD []
                        units_consumed := simulation_result.units_consumed }))
            | .otherData => .ok (.error (ClientError.ChannelError err))
          else .ok (.error (ClientError.ChannelError err))
      | .otherKind => .ok (.error (ClientError.ChannelError err))

/-- Outcome that the remote success path derives from a present transaction
meta: a pure function of the meta alone (logs from meta, units_consumed
always None, present on-chain error mapped to FailedTransaction). -/
def remoteOkOutcome (transaction_meta : TxMeta) :
    Except (ClientError SolanaClientError) TransactionDetails :=
  let details : TransactionDetails :=
    { log_messages := transaction_meta.log_messages.getD []
      units_consumed := none }
  match transaction_meta.err with
  | none => .ok details
  | some error => .error (ClientError.FailedTransaction error details)

/-- Abstract model of the RpcClient calls made during RemoteClientSync::new:
the account query at a commitment level and the external
Rent::from_account_info decode. -/
structure RemoteRpcModel where
  get_account_with_commitment :
    Pubkey → Commitment → Except SolanaClientError (Option Account)
  rent_from_account_info : Account → Option Rent

/-- src/client/remote.rs get_existing_account, line by line.  Note that the
source queries `Rent::id()` — not its `pubkey` argument — and only the
expect message mentions the requested pubkey. -/
def get_existing_account (M : RemoteRpcModel) (pubkey : Pubkey) :
    PanicOr (Except (ClientError SolanaClientError) Account) :=
  match M.get_account_with_commitment rentSysvarId Commitment.finalized with
  | .error e => .ok (.error (ClientError.ChannelError e))
  | .ok none =>
      .panicked ("Account " ++ toString pubkey ++ " should exist in the remote environment")
  | .ok (some account) => .ok (.ok account)

/-- The loop in RemoteClientSync::new over `genesis.accounts().keys()`,
asserting existence of each configured account via get_existing_account. -/
def checkGenesisAccounts (M : RemoteRpcModel) :
    List Pubkey → PanicOr (Except (ClientError SolanaClientError) Unit)
  | [] => .ok (.ok ())
  | key :: rest =>
      match get_existing_account M key with
      | .panicked msg => .panicked msg
      | .ok (.error e) => .ok (.error e)
      | .ok (.ok _) => checkGenesisAccounts M rest

/-- The Environment produced by RemoteClientSync::new, restricted to the
fields shared with src/lib.rs Environment (the source also sets a log_config
field that no struct in this repository declares). -/
structure RemoteEnvironment where
  payer : Keypair
  rent : Rent
  address_labels : List (Pubkey × String)

/-- src/client/remote.rs RemoteClientSync::new, line by line: read and decode
the rent sysvar (panicking on decode failure), run the existence loop over
the configured accounts, then require a configured payer (panicking when
missing, without querying the ledger for it). -/
def remote_new (M : RemoteRpcModel) (genesis : EnvironmentGenesis) :
    PanicOr (Except (ClientError SolanaClientError) RemoteEnvironment) :=
  match get_existing_account M rentSysvarId with
  | .panicked msg => .panicked msg
  | .ok (.error e) => .ok (.error e)
  | .ok (.ok rent_account) =>
      match M.rent_from_account_info rent_account with
      | none => .panicked "Rent account data corruption"
      | some rent =>
          match checkGenesisAccounts M (genesis.accounts.map Prod.fst) with
          | .panicked msg => .panicked msg
          | .ok (.error e) => .ok (.error e)
          | .ok (.ok _) =>
              match genesis.payer with
              | none => .panicked "Payer should be specified for remote client"
              | some payer =>
                  .ok (.ok { payer := payer
                             rent := rent
                             address_labels := genesis.address_labels })

/-- Rent sysvar account image served by the failing-input remote model. -/
def c1RentAccount : Account :=
  { lamports := 1, data := [], owner := systemProgramId, executable := false, rent_epoch := 0 }

/-- Failing-input remote ledger for claim C1: the Rent sysvar account exists,
every other address (including the configured account 77 and the payer 9) is
reported absent. -/
def c1Model : RemoteRpcModel :=
  { get_account_with_commitment := fun pubkey _ =>
      if pubkey = rentSysvarId then .ok (some c1RentAccount) else .ok none
    rent_from_account_info := fun _ => some Rent.default }

/-- Failing-input genesis for claim C1: one configured account at address 77
and the payer keypair with address 9. -/
def c1Genesis : EnvironmentGenesis :=
  { accounts := [(77, AccountConfig.default)], address_labels := [], payer := some ⟨9⟩ }

/-- Claim C1 (failing input): the remote ledger reports both the configured
address 77 and the payer address 9 as absent, yet build_remote succeeds and
returns an Environment — get_existing_account queries the Rent sysvar address
instead of its pubkey argument, and the payer's existence is never queried at
all, so absence is not turned into a failure. -/
theorem c1_remote_build_misses_absent_accounts :
    c1Model.get_account_with_commitment 77 Commitment.finalized = .ok none ∧
    c1Model.get_account_with_commitment 9 Commitment.finalized = .ok none ∧
    remote_new c1Model c1Genesis =
      .ok (.ok { payer := ⟨9⟩, rent := Rent.default, address_labels := [] }) :=
  ⟨rfl, rfl, rfl⟩

/-- Claim C10: when the remote send succeeds at the transport level and the
confirmed transaction is re-fetched successfully, the outcome of
send_transaction is determined entirely by the fetched metadata (the pure
function remoteOkOutcome of the meta); when the metadata is absent the call
panics on unwrap and in particular does not return — neither a success nor
any ClientError variant. -/
theorem c10_remote_success_path_meta_total
    (M : RemoteSendModel) (signat : Signature) (tx : EncodedTx)
    (hs : M.send_and_confirm_transaction = .ok signat)
    (hg : M.get_transaction signat = .ok tx) :
    remote_send_transaction M =
      (match tx.meta with
       | none => PanicOr.panicked unwrapNoneMsg
       | some transaction_meta => .ok (remoteOkOutcome transaction_meta)) ∧
    (tx.meta = none → ∀ r, remote_send_transaction M ≠ PanicOr.ok r) := by
  have key : remote_send_transaction M =
      (match tx.meta with
       | none => PanicOr.panicked unwrapNoneMsg
       | some transaction_meta => .ok (remoteOkOutcome transaction_meta)) := by
    simp only [remote_send_transaction, hs, hg]
    cases tx.meta with
    | none => rfl
    | some transaction_meta => cases h : transaction_meta.err <;> simp [remoteOkOutcome, h]
  refine ⟨key, ?_⟩
  intro hm r
  rw [key, hm]
  simp

/-- Concrete remote model for the C10 witness: transport success whose
re-fetched confirmed transaction carries no metadata. -/
def c10Model : RemoteSendModel :=
  { send_and_confirm_transaction := .ok 0
    get_transaction := fun _ => .ok { meta := none } }

/-- Claim C10 witness: on the concrete model with absent metadata the remote
send panics. -/
theorem c10_remote_success_path_meta_total_witness :
    remote_send_transaction c10Model = PanicOr.panicked unwrapNoneMsg :=
  (c10_remote_success_path_meta_total c10Model 0 { meta := none } rfl rfl).1

/-- Transport error carried by the failing input of claim C3: a preflight
simulation failure whose simulation reports 5 consumed units. -/
def c3PreflightError : SolanaClientError :=
  { kind := SolErrKind.RpcResponseError jsonRpcServerErrorSendTransactionPreflightFailure
      (RpcResponseData.SendTransactionPreflightFailure
        { err := some (TransactionError.other 1)
          logs := some ["preflight log"]
          units_consumed := some 5 }) }

/-- Remote client model for the C3 counterexample and witness. -/
def c3Model : RemoteSendModel :=
  { send_and_confirm_transaction := .error c3PreflightError
    get_transaction := fun _ => .ok { meta := none } }

/-- Claim C3 counterexample: the remote backend's send_transaction can return
FailedTransaction details whose units_consumed is present — the
preflight-failure branch copies the simulation's unit count (here Some 5)
into the details, so units_consumed is not always absent for the remote
backend. -/
theorem c3_remote_units_sometimes_present :
    remote_send_transaction c3Model =
      .ok (.error (ClientError.FailedTransaction (TransactionError.other 1)
        { log_messages := ["preflight log"], units_consumed := some 5 })) ∧
    some 5 ≠ (none : Option Nat) :=
  ⟨rfl, by decide⟩

/-- Claim C3 as amended: the local backend's TransactionDetails (success
payload and FailedTransaction details alike) carry units_consumed equal to
the engine-reported executed_units; the remote backend's success payload and
the FailedTransaction details derived from a confirmed on-chain failure have
units_consumed None, but a FailedTransaction produced from a
preflight-simulation failure carries the simulation's optional unit count. -/
theorem c3_units_consumed_amended :
    (∀ (ed : TransactionExecutionDetails) (d : TransactionDetails),
        convert_tx_result (E := LocalChannelError)
            (TransactionExecutionResult.Executed ed) = .ok d →
        d.units_consumed = ed.executed_units) ∧
    (∀ (ed : TransactionExecutionDetails) (e : TransactionError) (d : TransactionDetails),
        convert_tx_result (E := LocalChannelError)
            (TransactionExecutionResult.Executed ed) =
          .error (ClientError.FailedTransaction e d) →
        d.units_consumed = ed.executed_units) ∧
    (∀ (transaction_meta : TxMeta) (d : TransactionDetails),
        remoteOkOutcome transaction_meta = .ok d → d.units_consumed = none) ∧
    (∀ (transaction_meta : TxMeta) (e : TransactionError) (d : TransactionDetails),
        remoteOkOutcome transaction_meta = .error (ClientError.FailedTransaction e d) →
        d.units_consumed = none) ∧
    (∀ (M : RemoteSendModel) (err : SolanaClientError) (sim : SimResult) (e : TransactionError),
        M.send_and_confirm_transaction = .error err →
        err.kind = SolErrKind.RpcResponseError
          jsonRpcServerErrorSendTransactionPreflightFailure
          (RpcResponseData.SendTransactionPreflightFailure sim) →
        sim.err = some e →
        remote_send_transaction M =
          .ok (.error (ClientError.FailedTransaction e
            { log_messages := sim.logs.getD []
              units_consumed := sim.units_consumed }))) := by
  refine ⟨?_, ?_, ?_, ?_, ?_⟩
  · intro ed d h
    cases hs : ed.status with
    | ok u => simp [convert_tx_result, hs] at h; simp [← h]
    | error e => simp [convert_tx_result, hs] at h
  · intro ed e d h
    cases hs : ed.status with
    | ok u => simp [convert_tx_result, hs] at h
    | error e2 => simp [convert_tx_result, hs] at h; simp [← h.2]
  · intro transaction_meta d h
    cases he : transaction_meta.err with
    | none => simp [remoteOkOutcome, he] at h; simp [← h]
    | some e => simp [remoteOkOutcome, he] at h
  · intro transaction_meta e d h
    cases he : transaction_meta.err with
    | none => simp [remoteOkOutcome, he] at h
    | some e2 => simp [remoteOkOutcome, he] at h; simp [← h.2]
  · intro M err sim e h1 h2 h3
    simp only [remote_send_transaction, h1, h2, h3]
    norm_num [jsonRpcServerErrorSendTransactionPreflightFailure,
      jsonRpcServerErrorTransactionSignatureVerificationFailure]

/-- Claim C3 amended witness: the preflight clause of the amended theorem
applied to the concrete model with simulated units Some 5. -/
theorem c3_units_consumed_amended_witness :
    remote_send_transaction c3Model =
      .ok (.error (ClientError.FailedTransaction (TransactionError.other 1)
        { log_messages := (some ["preflight log"] : Option (List String)).getD []
          units_consumed := some 5 })) :=
  c3_units_consumed_amended.2.2.2.2 c3Model c3PreflightError
    { err := some (TransactionError.other 1)
      logs := some ["preflight log"]
      units_consumed := some 5 }
    (TransactionError.other 1) rfl rfl rfl

/-- Instruction AST covering the instruction builders the deployment helpers
invoke.  External solana_sdk builders are modelled as opaque tagged
instructions carrying exactly the arguments the repository passes
(bpf_loader_upgradeable::create_buffer, which expands to two system/loader
instructions, is kept as one tagged step). -/
inductive Instr where
  | createAccount (from_pubkey to_pubkey : Pubkey) (lamports : Nat) (space : Nat)
      (owner : Pubkey)
  | loaderWrite (account loader_id : Pubkey) (offset : Nat) (bytes : List UInt8)
  | loaderFinalize (account loader_id : Pubkey)
  | createBuffer (payer buffer authority : Pubkey) (lamports : Nat) (program_len : Nat)
  | upgradeableWrite (buffer authority : Pubkey) (offset : Nat) (bytes : List UInt8)
  | deployWithMaxProgramLen (payer program buffer authority : Pubkey)
      (lamports : Nat) (max_len : Nat)
deriving DecidableEq

/-- slice::chunks(900): consecutive chunks of at most 900 bytes, the last one
possibly shorter, none empty. -/
def chunks900 (xs : List UInt8) : List (List UInt8) :=
  if h : xs = [] then []
  else xs.take 900 :: chunks900 (xs.drop 900)
termination_by xs.length
decreasing_by
  have hpos : 0 < xs.length := List.length_pos.mpr h
  simp only [List.length_drop]
  omega

/-- The write loop of Environment::create_account_with_data: one
loader_instruction::write per chunk, with the running usize offset advanced
by the length of each chunk sent.  The source passes the offset as
`offset as u32`, so each emitted instruction carries the running offset
reduced modulo 2^32 (= 4294967296), while the accumulator itself stays
untruncated. -/
def writeChunksTrace (account : Pubkey) : Nat → List (List UInt8) → List Instr
  | _, [] => []
  | offset, chunk :: rest =>
      Instr.loaderWrite account bpfLoaderId (offset % 4294967296) chunk ::
        writeChunksTrace account (offset + chunk.length) rest

/-- src/lib.rs Environment::create_account_with_data as the ordered
instruction trace it issues on the all-success path: one
system_instruction::create_account funded at `rent.minimum_balance(n)`,
sized `n`, owned by the legacy BPF loader, then the chunked write loop. -/
def create_account_with_data (payer account : Pubkey) (rent : Rent)
    (data : List UInt8) : List Instr :=
  Instr.createAccount payer account (rent.minimum_balance data.length)
      data.length bpfLoaderId ::
    writeChunksTrace account 0 (chunks900 data)

/-- src/lib.rs Environment::deploy_program: create_account_with_data followed
by loader_instruction::finalize, which marks the account executable. -/
def deploy_program (payer account : Pubkey) (rent : Rent)
    (data : List UInt8) : List Instr :=
  create_account_with_data payer account rent data ++
    [Instr.loaderFinalize account bpfLoaderId]

theorem chunks900_flatten (xs : List UInt8) : (chunks900 xs).flatten = xs := by
  have aux : ∀ (n : Nat) (ys : List UInt8), ys.length ≤ n → (chunks900 ys).flatten = ys := by
    intro n
    induction n with
    | zero =>
        intro ys h
        have hy : ys = [] := List.eq_nil_of_length_eq_zero (Nat.le_zero.mp h)
        subst hy
        simp [chunks900]
    | succ n ih =>
        intro ys h
        by_cases hy : ys = []
        · subst hy; simp [chunks900]
        · have hpos : 0 < ys.length := List.length_pos.mpr hy
          unfold chunks900
          rw [dif_neg hy]
          have hlen : (ys.drop 900).length ≤ n := by
            simp only [List.length_drop]
            omega
          simp [ih _ hlen, List.take_append_drop]
  exact aux xs.length xs le_rfl

theorem chunks900_eq_ranges (xs : List UInt8) :
    chunks900 xs =
      (List.range ((xs.length + 899) / 900)).map
        (fun i => (xs.drop (900 * i)).take 900) := by
  have aux : ∀ (n : Nat) (ys : List UInt8), ys.length ≤ n →
      chunks900 ys =
        (List.range ((ys.length + 899) / 900)).map
          (fun i => (ys.drop (900 * i)).take 900) := by
    intro n
    induction n with
    | zero =>
        intro ys h
        have hy : ys = [] := List.eq_nil_of_length_eq_zero (Nat.le_zero.mp h)
        subst hy
        simp [chunks900]
    | succ n ih =>
        intro ys h
        by_cases hy : ys = []
        · subst hy; simp [chunks900]
        · have hpos : 0 < ys.length := List.length_pos.mpr hy
          unfold chunks900
          rw [dif_neg hy]
          have hlen : (ys.drop 900).length ≤ n := by
            simp only [List.length_drop]
            omega
          rw [ih _ hlen]
          rw [List.length_drop]
          have hcnt : (ys.length + 899) / 900 = (ys.length - 900 + 899) / 900 + 1 := by
            omega
          rw [hcnt, List.range_succ_eq_map]
          have hfun : (fun i => ((ys.drop 900).drop (900 * i)).take 900) =
              ((fun i => (ys.drop (900 * i)).take 900) ∘ Nat.succ) := by
            funext i
            simp only [Function.comp_apply, List.drop_drop]
            congr 2
            omega
          simp only [List.map_cons, List.map_map, hfun]
          simp
  exact aux xs.length xs le_rfl

theorem writeChunksTrace_chunks900 (account : Pubkey) (xs : List UInt8) :
    writeChunksTrace account 0 (chunks900 xs) =
      (List.range ((xs.length + 899) / 900)).map
        (fun i => Instr.loaderWrite account bpfLoaderId ((900 * i) % 4294967296)
          ((xs.drop (900 * i)).take 900)) := by
  have aux : ∀ (n : Nat) (ys : List UInt8) (k : Nat), ys.length ≤ n →
      writeChunksTrace account (900 * k) (chunks900 ys) =
        (List.range ((ys.length + 899) / 900)).map
          (fun i => Instr.loaderWrite account bpfLoaderId ((900 * (k + i)) % 4294967296)
            ((ys.drop (900 * i)).take 900)) := by
    intro n
    induction n with
    | zero =>
        intro ys k h
        have hy : ys = [] := List.eq_nil_of_length_eq_zero (Nat.le_zero.mp h)
        subst hy
        simp [chunks900, writeChunksTrace]
    | succ n ih =>
        intro ys k h
        by_cases hy : ys = []
        · subst hy; simp [chunks900, writeChunksTrace]
        · have hpos : 0 < ys.length := List.length_pos.mpr hy
          unfold chunks900
          rw [dif_neg hy]
          by_cases hle : ys.length ≤ 900
          · have hdrop : ys.drop 900 = [] := List.drop_eq_nil_of_le hle
            have hcnt : (ys.length + 899) / 900 = 1 := by omega
            rw [hdrop, hcnt]
            simp [writeChunksTrace, chunks900, List.range_succ]
          · have htk : (ys.take 900).length = 900 := by
              simp only [List.length_take]
              omega
            have hstep : writeChunksTrace account (900 * k)
                (ys.take 900 :: chunks900 (ys.drop 900)) =
                Instr.loaderWrite account bpfLoaderId ((900 * k) % 4294967296)
                    (ys.take 900) ::
                  writeChunksTrace account (900 * k + (ys.take 900).length)
                    (chunks900 (ys.drop 900)) := rfl
            rw [hstep, htk]
            have hoff : 900 * k + 900 = 900 * (k + 1) := by ring
            rw [hoff, ih (ys.drop 900) (k + 1) (by simp only [List.length_drop]; omega)]
            rw [List.length_drop]
            have hcnt : (ys.length + 899) / 900 = (ys.length - 900 + 899) / 900 + 1 := by
              omega
            rw [hcnt, List.range_succ_eq_map]
            have hfun : (fun i =>
                Instr.loaderWrite account bpfLoaderId ((900 * ((k + 1) + i)) % 4294967296)
                  (((ys.drop 900).drop (900 * i)).take 900)) =
                ((fun i =>
                  Instr.loaderWrite account bpfLoaderId ((900 * (k + i)) % 4294967296)
                    ((ys.drop (900 * i)).take 900)) ∘ Nat.succ) := by
              funext i
              simp only [Function.comp_apply, List.drop_drop, Nat.succ_eq_add_one]
              have e1 : 900 * ((k + 1) + i) = 900 * (k + (i + 1)) := by ring
              have e2 : 900 + 900 * i = 900 * (i + 1) := by ring
              rw [e1, e2]
            simp only [List.map_cons, List.map_map, hfun]
            simp
  have h0 := aux xs.length xs 0 le_rfl
  simpa using h0

/-- Claim C6 as amended: for a payload of n bytes, create_account_with_data
first issues one create-account instruction with space exactly n, funded at
exactly the rent-exempt minimum for n bytes and owned by the legacy BPF
loader, then issues exactly ceil(n/900) write instructions in order, the
i-th carrying offset 900*i reduced modulo 2^32 (the source casts the running
usize offset with `offset as u32`; the reduction is the identity — the
offset is exactly 900*i — whenever the payload is at most 2^32 bytes) and
the i-th consecutive chunk of 900 bytes (the final one possibly shorter);
those chunks concatenated in offset order are exactly the payload;
deploy_program issues the same trace followed by one finalize
instruction. -/
theorem c6_create_account_with_data_protocol
    (payer account : Pubkey) (rent : Rent) (data : List UInt8) :
    create_account_with_data payer account rent data =
      Instr.createAccount payer account (rent.minimum_balance data.length)
          data.length bpfLoaderId ::
        (List.range ((data.length + 899) / 900)).map
          (fun i => Instr.loaderWrite account bpfLoaderId ((900 * i) % 4294967296)
            ((data.drop (900 * i)).take 900)) ∧
    ((List.range ((data.length + 899) / 900)).map
        (fun i => (data.drop (900 * i)).take 900)).flatten = data ∧
    (∀ i, i < (data.length + 899) / 900 → data.length ≤ 4294967296 →
      (900 * i) % 4294967296 = 900 * i) ∧
    deploy_program payer account rent data =
      create_account_with_data payer account rent data ++
        [Instr.loaderFinalize account bpfLoaderId] := by
  refine ⟨?_, ?_, ?_, rfl⟩
  · unfold create_account_with_data
    rw [writeChunksTrace_chunks900]
  · rw [← chunks900_eq_ranges]
    exact chunks900_flatten data
  · intro i hi hn
    omega

/-- Claim C6 witness: the truncation-is-identity clause of the protocol
theorem applied to a concrete 1000-byte payload at write index 1. -/
theorem c6_create_account_with_data_protocol_witness :
    (900 * 1) % 4294967296 = 900 * 1 :=
  (c6_create_account_with_data_protocol 0 1 Rent.default
      (List.replicate 1000 0)).2.2.1 1
    (by rw [List.length_replicate]; norm_num)
    (by rw [List.length_replicate]; norm_num)

/-- Payload of 2^32 + 900 zero bytes, on which the write-loop offsets
overrun u32. -/
def c6BigData : List UInt8 := List.replicate 4294968196 0

/-- Claim C6 counterexample: on the payload of 2^32 + 900 bytes, the write
instruction at index 4772186 of the chunk loop (list position 4772187, after
the create-account head) carries offset 104 = (900 * 4772186) mod 2^32, not
the claimed 900 * 4772186 — the `offset as u32` cast wraps. -/
theorem c6_offset_wraps_beyond_u32 :
    (create_account_with_data 0 1 Rent.default c6BigData)[4772187]? =
      some (Instr.loaderWrite 1 bpfLoaderId 104
        ((c6BigData.drop (900 * 4772186)).take 900)) ∧
    (104 : Nat) ≠ 900 * 4772186 := by
  constructor
  · have hlen : c6BigData.length = 4294968196 := by
      unfold c6BigData
      rw [List.length_replicate]
    unfold create_account_with_data
    rw [writeChunksTrace_chunks900, hlen]
    have hcnt : (4294968196 + 899) / 900 = 4772187 := by norm_num
    rw [hcnt]
    have hidx : (4772187 : Nat) = 4772186 + 1 := by norm_num
    rw [hidx, List.getElem?_cons_succ, List.getElem?_map,
      List.getElem?_range (by norm_num)]
    have hmod : (900 * 4772186) % 4294967296 = 104 := by norm_num
    show some (Instr.loaderWrite 1 bpfLoaderId ((900 * 4772186) % 4294967296)
        ((c6BigData.drop (900 * 4772186)).take 900)) =
      some (Instr.loaderWrite 1 bpfLoaderId 104
        ((c6BigData.drop (900 * 4772186)).take 900))
    rw [hmod]
  · norm_num

/-- Abstract model of the program-derived-address machinery:
Pubkey::find_program_address (SHA-256 search for the first off-curve bump)
and the ed25519 curve membership test.  The cryptographic facts the claims
rely on — derived addresses are off-curve while keypair public keys are
on-curve points — enter the theorems as explicit hypotheses about this
model. -/
structure PdaModel where
  find_program_address : List (List UInt8) → Pubkey → Pubkey × Nat
  is_on_curve : Pubkey → Bool

/-- Modelled from the external crate: serialized size of the
UpgradeableLoaderState::ProgramData metadata (enum tag, slot, optional
authority pubkey), so programdata_len(n) = 45 + n. -/
def UpgradeableLoaderState.programdata_len (program_len : Nat) : Nat :=
  45 + program_len

/-- Modelled from the external crate: serialized size of
UpgradeableLoaderState::Program (enum tag plus programdata address). -/
def UpgradeableLoaderState.program_len : Nat := 36

/-- The write loop of Environment::deploy_upgradeable_program: one
bpf_loader_upgradeable::write per chunk with the running usize offset
advanced by the length of each chunk sent.  As in the legacy loop, the
source passes `offset as u32`, so each emitted instruction carries the
offset reduced modulo 2^32. -/
def upgradeableWriteTrace (buffer authority : Pubkey) :
    Nat → List (List UInt8) → List Instr
  | _, [] => []
  | offset, chunk :: rest =>
      Instr.upgradeableWrite buffer authority (offset % 4294967296) chunk ::
        upgradeableWriteTrace buffer authority (offset + chunk.length) rest

/-- src/lib.rs Environment::deploy_upgradeable_program as the instruction
trace it issues on the all-success path, paired with the ProgramData address
it returns.  The address is find_program_address with the program pubkey
bytes as the sole seed under the upgradeable-loader id, computed before
anything else; the buffer is sized to the payload (doubled when non-compact)
and funded at the rent minimum for the corresponding programdata length. -/
def deploy_upgradeable_program (M : PdaModel) (rent : Rent) (payer : Pubkey)
    (program_account buffer_account authority_account : Pubkey)
    (data : List UInt8) (compact : Bool) : List Instr × Pubkey :=
  let programdata_address :=
    (M.find_program_address [Pubkey.to_bytes program_account] upgradeableLoaderId).1
  let program_max_size := if compact then data.length else data.length * 2
  let buffer_balance :=
    rent.minimum_balance (UpgradeableLoaderState.programdata_len program_max_size)
  (Instr.createBuffer payer buffer_account authority_account buffer_balance
      program_max_size ::
    upgradeableWriteTrace buffer_account authority_account 0 (chunks900 data) ++
    [Instr.deployWithMaxProgramLen payer program_account buffer_account
      authority_account (rent.minimum_balance UpgradeableLoaderState.program_len)
      program_max_size],
   programdata_address)

/-- Claim C7: deploy_upgradeable_program returns exactly the address that
find_program_address derives from the program pubkey bytes (sole seed) under
the upgradeable-loader id; the returned address is therefore identical across
calls with the same program address regardless of rent schedule, payer,
buffer, authority, payload, or the compact flag; and — since derived
addresses are off-curve while a keypair's public key is on-curve — it differs
from the program's own address. -/
theorem c7_deploy_upgradeable_programdata_address
    (M : PdaModel) (rent rent2 : Rent) (payer payer2 : Pubkey)
    (program : Keypair) (buffer authority buffer2 authority2 : Pubkey)
    (data data2 : List UInt8) (compact compact2 : Bool)
    (hpda : M.is_on_curve
      (M.find_program_address [Pubkey.to_bytes program.pubkey]
        upgradeableLoaderId).1 = false)
    (hkey : M.is_on_curve program.pubkey = true) :
    (deploy_upgradeable_program M rent payer program.pubkey buffer authority
        data compact).2 =
      (M.find_program_address [Pubkey.to_bytes program.pubkey]
        upgradeableLoaderId).1 ∧
    (deploy_upgradeable_program M rent payer program.pubkey buffer authority
        data compact).2 =
      (deploy_upgradeable_program M rent2 payer2 program.pubkey buffer2
        authority2 data2 compact2).2 ∧
    (deploy_upgradeable_program M rent payer program.pubkey buffer authority
        data compact).2 ≠ program.pubkey := by
  refine ⟨rfl, rfl, ?_⟩
  intro h
  have hh : (M.find_program_address [Pubkey.to_bytes program.pubkey]
      upgradeableLoaderId).1 = program.pubkey := h
  rw [hh] at hpda
  rw [hpda] at hkey
  exact Bool.noConfusion hkey

/-- Concrete PDA model for the C7 witness: derivation always lands on the
off-curve point 99, and 7 is the only on-curve point. -/
def c7PdaModel : PdaModel :=
  { find_program_address := fun _ _ => (99, 255)
    is_on_curve := fun p => p == 7 }

/-- Claim C7 witness: the address theorem applied to the concrete PDA model,
two different rent schedules, payloads and flags. -/
theorem c7_deploy_upgradeable_programdata_address_witness :
    (deploy_upgradeable_program c7PdaModel Rent.default 0 7 11 12 [1] true).2 = 99 ∧
    (deploy_upgradeable_program c7PdaModel Rent.default 0 7 11 12 [1] true).2 =
      (deploy_upgradeable_program c7PdaModel ⟨fun _ => 0⟩ 5 7 13 14 [1, 2, 3] false).2 ∧
    (deploy_upgradeable_program c7PdaModel Rent.default 0 7 11 12 [1] true).2 ≠ 7 := by
  have h := c7_deploy_upgradeable_programdata_address c7PdaModel Rent.default
    ⟨fun _ => 0⟩ 0 5 ⟨7⟩ 11 12 13 14 [1] [1, 2, 3] true false (by decide) (by decide)
  exact ⟨h.1.trans rfl, h.2.1, h.2.2⟩

/-- Claim C5 witness: the conversion theorem applied at a concrete transport
error, showing the boxed ChannelError keeps the display text. -/
theorem c5_dyn_client_error_conversion_lossless_witness :
    DynClientError.ofClientError (fun _ : Unit => "connection refused")
      (ClientError.ChannelError ()) =
      DynClientError.ChannelError "connection refused" :=
  (c5_dyn_client_error_conversion_lossless (fun _ : Unit => "connection refused")
    (ClientError.ChannelError ())).2.2.2.2.1 () rfl

end Sunburn
